import Mathlib

/-
Shallow embedding of the poc-pg-worker notification-dispatch engine
(`worker.go`, `models.go`), verifying the behavioural claims of its
specification.

The Go functions are embedded as pure Lean functions over explicit
effect environments:

* `waitForConnection` (worker.go:27-41) — bounded connection retry,
  modelled with oracles for ping success and context cancellation per
  attempt, returning the counts of ping attempts and completed interval
  waits together with the final result.
* `worker` / `workerLoop` (worker.go:43-86) — the subscriber loop,
  modelled as a fold over a finite schedule of pull outcomes
  (cancellation, wait error with or without cancellation, event).
* `processTask` (worker.go:89-112) — decode, write status processing,
  write status completed; modelled with an environment giving the result
  of each store write, returning the trace of committed status writes.
* `processNotification` (worker.go:114-170) — decode, write processing,
  enumerate subscriptions, sequentially deliver, write failed/completed;
  the push transport `webpush.SendNotification` and the response-body
  read are an external oracle (`FanEnv.send`), indexed by the raw
  payload and the subscription so payload dependence is visible.

JSON decoding (`encoding/json.Unmarshal` into the `task` and
`notification` structs of models.go) is modelled over a JSON value tree:
object keys are matched case-insensitively against the lowercase field
tags, unknown keys are skipped without error, later duplicate keys
overwrite earlier ones, `null` leaves the target unchanged, and a type
mismatch records an error (the Go decoder reports the first such error;
the processor only observes that the result is an error). RFC3339
validation of timestamp strings by the standard library is abstracted:
timestamps are opaque strings and decoding a timestamp field requires a
JSON string. Store rows are modelled by `taskRow` with `applyTaskWrite`
for the SQL `UPDATE tasks SET status = ... WHERE id = ...`, which
touches only the status column.
-/

/-- JSON value tree: the wire form of event payloads. -/
inductive JVal where
  | null
  | bool (b : Bool)
  | num (n : Int)
  | str (s : String)
  | arr (elems : List JVal)
  | obj (fields : List (String × JVal))

/-- ASCII lower-casing of one character, the case folding used for
JSON key matching. -/
def asciiLower (c : Char) : Char :=
  if 65 ≤ c.toNat ∧ c.toNat ≤ 90 then Char.ofNat (c.toNat + 32) else c

/-- Case-insensitive match of a JSON object key against a struct field
tag (encoding/json matches keys case-insensitively). -/
def keyIs (k tag : String) : Bool :=
  k.data.map asciiLower == tag.data.map asciiLower

/-- Status values written to the status columns (the SQL literals
'pending', 'processing', 'completed', 'failed'). -/
inductive WStatus where
  | pending
  | processing
  | completed
  | failed
deriving DecidableEq, Repr

/-- The task struct of models.go. Timestamps are opaque RFC3339
strings. The Go field Type is named Typ here because Type is a Lean
keyword. -/
structure task where
  ID : String
  Typ : String
  Payload : JVal
  Status : String
  Created : String
  Updated : String

/-- The notification struct of models.go: id, body and timestamps only —
it has no Status field. -/
structure notification where
  ID : Int
  Body : String
  Created : String
  Updated : String
deriving DecidableEq, Repr

/-- Zero value of the task struct. -/
def zeroTask : task := ⟨"", "", JVal.null, "", "", ""⟩

/-- Zero value of the notification struct. -/
def zeroNotification : notification := ⟨0, "", "", ""⟩

/-- One step of json.Unmarshal into a task: dispatch one object entry to
the matching struct field. Unknown keys are skipped, null is a no-op, a
type mismatch keeps the first error and continues. -/
def taskStep (acc : task × Option String) (kv : String × JVal) : task × Option String :=
  if keyIs kv.1 "id" then
    match kv.2 with
    | JVal.str s => ({acc.1 with ID := s}, acc.2)
    | JVal.null => acc
    | _ => (acc.1, some (acc.2.getD "json: cannot unmarshal value into field task.id of type string"))
  else if keyIs kv.1 "type" then
    match kv.2 with
    | JVal.str s => ({acc.1 with Typ := s}, acc.2)
    | JVal.null => acc
    | _ => (acc.1, some (acc.2.getD "json: cannot unmarshal value into field task.type of type string"))
  else if keyIs kv.1 "payload" then
    ({acc.1 with Payload := kv.2}, acc.2)
  else if keyIs kv.1 "status" then
    match kv.2 with
    | JVal.str s => ({acc.1 with Status := s}, acc.2)
    | JVal.null => acc
    | _ => (acc.1, some (acc.2.getD "json: cannot unmarshal value into field task.status of type string"))
  else if keyIs kv.1 "created" then
    match kv.2 with
    | JVal.str s => ({acc.1 with Created := s}, acc.2)
    | JVal.null => acc
    | _ => (acc.1, some (acc.2.getD "Time.UnmarshalJSON: input is not a JSON string"))
  else if keyIs kv.1 "updated" then
    match kv.2 with
    | JVal.str s => ({acc.1 with Updated := s}, acc.2)
    | JVal.null => acc
    | _ => (acc.1, some (acc.2.getD "Time.UnmarshalJSON: input is not a JSON string"))
  else acc

/-- Model of json.Unmarshal of an event payload into the task struct
(worker.go:92). A JSON null is a no-op that succeeds with the zero
value; a non-object, non-null payload is a decode error, as is a type
mismatch on any matched field. -/
def decodeTask : JVal → Except String task
  | JVal.null => Except.ok zeroTask
  | JVal.obj fs =>
    match fs.foldl taskStep (zeroTask, none) with
    | (t, none) => Except.ok t
    | (_, some e) => Except.error e
  | _ => Except.error "json: cannot unmarshal value into Go value of type main.task"

/-- One step of json.Unmarshal into a notification: dispatch one object
entry. There is no status field on the struct, so a "status" key falls
through to the unknown-key case and is skipped. -/
def notifStep (acc : notification × Option String) (kv : String × JVal) :
    notification × Option String :=
  if keyIs kv.1 "id" then
    match kv.2 with
    | JVal.num m => ({acc.1 with ID := m}, acc.2)
    | JVal.null => acc
    | _ => (acc.1, some (acc.2.getD "json: cannot unmarshal value into field notification.id of type int"))
  else if keyIs kv.1 "body" then
    match kv.2 with
    | JVal.str s => ({acc.1 with Body := s}, acc.2)
    | JVal.null => acc
    | _ => (acc.1, some (acc.2.getD "json: cannot unmarshal value into field notification.body of type string"))
  else if keyIs kv.1 "created" then
    match kv.2 with
    | JVal.str s => ({acc.1 with Created := s}, acc.2)
    | JVal.null => acc
    | _ => (acc.1, some (acc.2.getD "Time.UnmarshalJSON: input is not a JSON string"))
  else if keyIs kv.1 "updated" then
    match kv.2 with
    | JVal.str s => ({acc.1 with Updated := s}, acc.2)
    | JVal.null => acc
    | _ => (acc.1, some (acc.2.getD "Time.UnmarshalJSON: input is not a JSON string"))
  else acc

/-- Model of json.Unmarshal of an event payload into the notification
struct (worker.go:117). -/
def decodeNotification : JVal → Except String notification
  | JVal.null => Except.ok zeroNotification
  | JVal.obj fs =>
    match fs.foldl notifStep (zeroNotification, none) with
    | (n, none) => Except.ok n
    | (_, some e) => Except.error e
  | _ => Except.error "json: cannot unmarshal value into Go value of type main.notification"

/-- Effect environment of processTask: the results the store returns for
the two UPDATE statements. -/
structure TaskEnv where
  procWrite : Except String Unit
  compWrite : Except String Unit

/-- Model of processTask (worker.go:89-112). Returns the trace of
status writes the store committed, as (status, id) pairs in order, and
the processor's result. A failed Exec commits nothing and aborts. -/
def processTask (env : TaskEnv) (payload : JVal) :
    List (WStatus × String) × Except String Unit :=
  match decodeTask payload with
  | Except.error e => ([], Except.error ("failed to unmarshal task: " ++ e))
  | Except.ok t =>
    match env.procWrite with
    | Except.error e => ([], Except.error ("failed to update task status: " ++ e))
    | Except.ok _ =>
      match env.compWrite with
      | Except.error e =>
        ([(WStatus.processing, t.ID)], Except.error ("failed to update task status: " ++ e))
      | Except.ok _ =>
        ([(WStatus.processing, t.ID), (WStatus.completed, t.ID)], Except.ok ())

/-- A push subscription row: endpoint plus the two webpush keys
(SELECT endpoint, auth, p256dh FROM subscriptions). -/
structure Subscription where
  Endpoint : String
  Auth : String
  P256dh : String
deriving DecidableEq, Repr

/-- Outcome of one webpush.SendNotification call: a hard transport
error, or a response whose body read (io.ReadAll) itself succeeds or
fails. -/
inductive SendRes where
  | err (e : String)
  | ok (bodyRead : Except String String)

/-- Effect environment of processNotification: results of the store
writes, the subscription query with its per-row scans, and the push
transport oracle indexed by the raw payload and the subscription. -/
structure FanEnv where
  procWrite : Except String Unit
  subsRows : Except String (List (Except String Subscription))
  send : JVal → Subscription → SendRes
  failWrite : Except String Unit
  compWrite : Except String Unit

/-- The rows.Next/rows.Scan loop (worker.go:134-140): collect scanned
subscriptions in order, aborting on the first scan error. -/
def scanSubs : List (Except String Subscription) → Except String (List Subscription)
  | [] => Except.ok []
  | Except.error e :: _ => Except.error ("failed to scan subscription: " ++ e)
  | Except.ok s :: rest =>
    match scanSubs rest with
    | Except.error e => Except.error e
    | Except.ok l => Except.ok (s :: l)

/-- The sequential delivery loop over subscriptions (worker.go:142-161).
Returns (status writes committed inside the loop, delivery calls made in
order, result). Each call passes the raw payload to the transport. On a
hard transport error the loop writes status failed and returns the send
error; on a response-body read error it returns without writing. -/
def fanLoop (env : FanEnv) (payload : JVal) (nid : Int) :
    List Subscription → List (WStatus × Int) × List Subscription × Except String Unit
  | [] => ([], [], Except.ok ())
  | sub :: rest =>
    match env.send payload sub with
    | SendRes.err e =>
      match env.failWrite with
      | Except.error e2 => ([], [sub], Except.error ("failed to update notification status: " ++ e2))
      | Except.ok _ =>
        ([(WStatus.failed, nid)], [sub], Except.error ("failed to send notification: " ++ e))
    | SendRes.ok bodyRead =>
      match bodyRead with
      | Except.error e => ([], [sub], Except.error ("failed to read vapid response body: " ++ e))
      | Except.ok _ =>
        let r := fanLoop env payload nid rest
        (r.1, sub :: r.2.1, r.2.2)

/-- Observable outcome of processNotification: committed status writes
for the notification row, delivery calls in order, and the result. -/
structure FanOut where
  writes : List (WStatus × Int)
  calls : List Subscription
  result : Except String Unit

/-- Model of processNotification (worker.go:114-170): decode, write
status processing, enumerate the current subscription set, deliver
sequentially via fanLoop, then write status completed. -/
def processNotification (env : FanEnv) (payload : JVal) : FanOut :=
  match decodeNotification payload with
  | Except.error e => ⟨[], [], Except.error ("failed to unmarshal notification: " ++ e)⟩
  | Except.ok n =>
    match env.procWrite with
    | Except.error e => ⟨[], [], Except.error ("failed to update notification status: " ++ e)⟩
    | Except.ok _ =>
      match env.subsRows with
      | Except.error e =>
        ⟨[(WStatus.processing, n.ID)], [], Except.error ("failed to retrieve subscriptions: " ++ e)⟩
      | Except.ok rows =>
        match scanSubs rows with
        | Except.error e => ⟨[(WStatus.processing, n.ID)], [], Except.error e⟩
        | Except.ok subs =>
          let r := fanLoop env payload n.ID subs
          match r.2.2 with
          | Except.error e => ⟨(WStatus.processing, n.ID) :: r.1, r.2.1, Except.error e⟩
          | Except.ok _ =>
            match env.compWrite with
            | Except.error e =>
              ⟨(WStatus.processing, n.ID) :: r.1, r.2.1,
               Except.error ("failed to update notification status: " ++ e)⟩
            | Except.ok _ =>
              ⟨(WStatus.processing, n.ID) :: (r.1 ++ [(WStatus.completed, n.ID)]), r.2.1,
               Except.ok ()⟩

/-- The maxRetries constant of worker.go:23. -/
def maxRetries : Nat := 5

/-- The retryInterval constant of worker.go:24, in seconds. -/
def retryIntervalSeconds : Nat := 5

/-- Observable outcome of waitForConnection: number of Ping calls made,
number of completed retry-interval waits, and the result. -/
structure GuardOut where
  pings : Nat
  waits : Nat
  result : Except String Unit

/-- The retry loop of waitForConnection, from attempt index i with rem
attempts remaining. pingOk i tells whether pool.Ping succeeds on attempt
i; cancelled i tells whether ctx.Done fires during the wait after a
failed attempt i (in which case ctx.Err is returned before the wait
completes). -/
def wfcLoop (pingOk cancelled : Nat → Bool) : Nat → Nat → GuardOut
  | _, 0 => ⟨0, 0, Except.error "failed to connect to database after 5 attempts"⟩
  | i, rem + 1 =>
    if pingOk i then ⟨1, 0, Except.ok ()⟩
    else if cancelled i then ⟨1, 0, Except.error "context canceled"⟩
    else
      let o := wfcLoop pingOk cancelled (i + 1) rem
      ⟨o.pings + 1, o.waits + 1, o.result⟩

/-- Model of waitForConnection (worker.go:27-41). -/
def waitForConnection (pingOk cancelled : Nat → Bool) : GuardOut :=
  wfcLoop pingOk cancelled 0 maxRetries

/-- One pull outcome observed by the subscriber loop (worker.go:62-84):
ctx.Done at the top of the loop, a WaitForNotification error with the
context already cancelled, a WaitForNotification error without
cancellation, or an arriving event payload. -/
inductive Pull where
  | ctxDone
  | waitErrCancelled (e : String)
  | waitErr (e : String)
  | event (payload : JVal)

/-- How a finite run of the subscriber loop ended: a clean nil return on
cancellation, or the schedule exhausted with the loop still running. -/
inductive ExitKind where
  | cleanExit
  | stillRunning
deriving DecidableEq, Repr

/-- Observable outcome of a finite run of the subscriber loop: all store
writes committed by processed events, the payloads handed to the
processor in order, the lines logged to stderr, and how the run ended. -/
structure LoopOut (α : Type) where
  writes : List α
  processed : List JVal
  logs : List String
  exit : ExitKind

/-- Model of the subscriber loop of worker (worker.go:62-84), run over a
finite schedule of pull outcomes. Cancellation returns nil cleanly; a
non-cancellation wait error is logged and the loop continues; an event
is handed to the processor, whose error (if any) is logged, and the loop
continues. -/
def workerLoop {α : Type} (proc : JVal → List α × Except String Unit) :
    List Pull → LoopOut α
  | [] => ⟨[], [], [], ExitKind.stillRunning⟩
  | Pull.ctxDone :: _ => ⟨[], [], [], ExitKind.cleanExit⟩
  | Pull.waitErrCancelled _ :: _ => ⟨[], [], [], ExitKind.cleanExit⟩
  | Pull.waitErr e :: rest =>
    let o := workerLoop proc rest
    ⟨o.writes, o.processed, ("error waiting for notification: " ++ e) :: o.logs, o.exit⟩
  | Pull.event p :: rest =>
    let r := proc p
    let o := workerLoop proc rest
    match r.2 with
    | Except.error e =>
      ⟨r.1 ++ o.writes, p :: o.processed,
       ("error processing notification: " ++ e) :: o.logs, o.exit⟩
    | Except.ok _ => ⟨r.1 ++ o.writes, p :: o.processed, o.logs, o.exit⟩

/-- Model of the full worker run (worker.go:43-86): connection guard,
connection acquisition, LISTEN registration, then the subscriber loop. -/
def worker {α : Type} (pingOk cancelled : Nat → Bool)
    (acquire listenReg : Except String Unit)
    (proc : JVal → List α × Except String Unit) (pulls : List Pull) :
    Except String (LoopOut α) :=
  match (waitForConnection pingOk cancelled).result with
  | Except.error e => Except.error ("worker failed to connect to database: " ++ e)
  | Except.ok _ =>
    match acquire with
    | Except.error e => Except.error ("failed to acquire connection: " ++ e)
    | Except.ok _ =>
      match listenReg with
      | Except.error e => Except.error ("failed to start listening: " ++ e)
      | Except.ok _ => Except.ok (workerLoop proc pulls)

/-- A row of the tasks table, as far as the dispatch engine observes it:
identity, status column, and the two timestamp columns. -/
structure taskRow where
  id : String
  status : WStatus
  created : String
  updated : String
deriving DecidableEq, Repr

/-- Effect of one committed UPDATE tasks SET status = s WHERE id = x on
a row: only the status column changes, and only on the matching row. -/
def applyTaskWrite (r : taskRow) (w : WStatus × String) : taskRow :=
  if w.2 = r.id then {r with status := w.1} else r

/-- Full per-endpoint delivery success: the transport call returned a
response and reading its body succeeded. -/
def sendFullOk (r : SendRes) : Bool :=
  match r with
  | SendRes.ok (Except.ok _) => true
  | _ => false

/-- Relation between two JSON field lists that agree everywhere except
possibly in the value stored under the key "status". -/
inductive StatusDiff : List (String × JVal) → List (String × JVal) → Prop where
  | nil : StatusDiff [] []
  | same (kv : String × JVal) (l1 l2 : List (String × JVal)) :
      StatusDiff l1 l2 → StatusDiff (kv :: l1) (kv :: l2)
  | status (v1 v2 : JVal) (l1 l2 : List (String × JVal)) :
      StatusDiff l1 l2 → StatusDiff (("status", v1) :: l1) (("status", v2) :: l2)

/-- Concrete task event payload: an object carrying only an id. -/
def p4 : JVal := JVal.obj [("id", JVal.str "t1")]

/-- Concrete malformed payload: a JSON string where an object is
expected, so decoding fails on both channels. -/
def pBad : JVal := JVal.str "oops"

/-- Concrete notification event payload, carrying a status field that
the notification struct does not have. -/
def p9 : JVal := JVal.obj [("id", JVal.num 7), ("body", JVal.str "hi"), ("status", JVal.str "pending")]

/-- Task environment in which both status writes succeed. -/
def envOKt : TaskEnv := ⟨Except.ok (), Except.ok ()⟩

/-- Task environment in which the second status write fails. -/
def env4 : TaskEnv := ⟨Except.ok (), Except.error "disk full"⟩

/-- Concrete subscription rows. -/
def subA : Subscription := ⟨"https://push.example/e1", "a1", "k1"⟩

/-- Second concrete subscription row. -/
def subB : Subscription := ⟨"https://push.example/e2", "a2", "k2"⟩

/-- Third concrete subscription row. -/
def subC : Subscription := ⟨"https://push.example/e3", "a3", "k3"⟩

/-- Fan-out environment in which every delivery fully succeeds. -/
def envNOk : FanEnv :=
  ⟨Except.ok (), Except.ok [Except.ok subA, Except.ok subB],
   fun _ _ => SendRes.ok (Except.ok "created"), Except.ok (), Except.ok ()⟩

/-- Fan-out environment in which the transport call to subB returns a
hard error while every other call fully succeeds. -/
def env1c : FanEnv :=
  ⟨Except.ok (), Except.ok [Except.ok subA, Except.ok subB, Except.ok subC],
   fun _ s => if s = subB then SendRes.err "connection refused" else SendRes.ok (Except.ok "done"),
   Except.ok (), Except.ok ()⟩

/-- Fan-out environment in which the transport call to subA succeeds
but reading its response body fails. -/
def env9 : FanEnv :=
  ⟨Except.ok (), Except.ok [Except.ok subA, Except.ok subB],
   fun _ s => if s = subA then SendRes.ok (Except.error "read failed") else SendRes.ok (Except.ok "done"),
   Except.ok (), Except.ok ()⟩

/-- Fan-out environment in which the transport call to subB succeeds
but reading its response body fails, after a fully successful subA. -/
def env9b : FanEnv :=
  ⟨Except.ok (), Except.ok [Except.ok subA, Except.ok subB, Except.ok subC],
   fun _ s => if s = subB then SendRes.ok (Except.error "unexpected EOF") else SendRes.ok (Except.ok "done"),
   Except.ok (), Except.ok ()⟩

/-- Fan-out environment with one subscription and full success. -/
def env10 : FanEnv :=
  ⟨Except.ok (), Except.ok [Except.ok subA],
   fun _ _ => SendRes.ok (Except.ok "ok"), Except.ok (), Except.ok ()⟩

/-- Notification payload fields, first variant of the status value. -/
def fs1c : List (String × JVal) := [("id", JVal.num 1), ("status", JVal.str "pending")]

/-- Notification payload fields, second variant of the status value. -/
def fs2c : List (String × JVal) := [("id", JVal.num 1), ("status", JVal.str "completed")]

/-- A task row sitting at pending, about to be processed. -/
def rowT : taskRow := ⟨"t1", WStatus.pending, "2024-01-01T00:00:00Z", "2024-01-01T00:00:00Z"⟩

/-- A task row that already reached the terminal status completed. -/
def row5 : taskRow := ⟨"t1", WStatus.completed, "2024-01-01T00:00:00Z", "2024-01-02T00:00:00Z"⟩

/-- Ping oracle: the store becomes reachable on the third attempt. -/
def pingOk3 : Nat → Bool := fun i => decide (2 ≤ i)

/-- Ping oracle: the store is never reachable. -/
def pingNever : Nat → Bool := fun _ => false

/-- Cancellation oracle: the context is never cancelled. -/
def cancelNever : Nat → Bool := fun _ => false

/-- Cancellation oracle: the context is cancelled during the wait after
the second failed attempt. -/
def cancelAt1 : Nat → Bool := fun i => decide (i = 1)

/-- A committed status write never changes the updated column of any
row: the UPDATE statements of worker.go set only the status column. -/
theorem applyTaskWrite_updated (r : taskRow) (w : WStatus × String) :
    (applyTaskWrite r w).updated = r.updated := by
  unfold applyTaskWrite
  split <;> rfl

/-- Unpack a fully successful delivery outcome. -/
theorem sendFullOk_eq {r : SendRes} (h : sendFullOk r = true) :
    ∃ b, r = SendRes.ok (Except.ok b) := by
  cases r with
  | err e => simp [sendFullOk] at h
  | ok br =>
    cases br with
    | error e => simp [sendFullOk] at h
    | ok b => exact ⟨b, rfl⟩

/-- The delivery loop walks past a prefix of fully successful endpoints:
each is called, contributes no status write, and the loop continues with
the remaining endpoints. -/
theorem fanLoop_append_ok (env : FanEnv) (p : JVal) (nid : Int) :
    ∀ pre l : List Subscription, (∀ s ∈ pre, sendFullOk (env.send p s) = true) →
      fanLoop env p nid (pre ++ l) =
        ((fanLoop env p nid l).1, pre ++ (fanLoop env p nid l).2.1,
         (fanLoop env p nid l).2.2) := by
  intro pre
  induction pre with
  | nil => intro l h; rfl
  | cons s rest ih =>
    intro l h
    obtain ⟨b, hb⟩ := sendFullOk_eq (h s (by simp))
    have ihr := ih l (fun x hx => h x (by simp [hx]))
    simp [fanLoop, hb, ihr]

/-- The delivery loop commits either no status write or exactly one
failed write for the notification row. -/
theorem fanLoop_writes_shape (env : FanEnv) (p : JVal) (nid : Int) :
    ∀ subs : List Subscription,
      (fanLoop env p nid subs).1 = [] ∨
      (fanLoop env p nid subs).1 = [(WStatus.failed, nid)] := by
  intro subs
  induction subs with
  | nil => left; rfl
  | cons s rest ih =>
    cases hs : env.send p s with
    | err e =>
      cases hf : env.failWrite with
      | error e2 => left; simp [fanLoop, hs, hf]
      | ok u => right; simp [fanLoop, hs, hf]
    | ok br =>
      cases br with
      | error e => left; simp [fanLoop, hs]
      | ok b => simpa [fanLoop, hs] using ih

/-- When the delivery loop succeeds it committed no status write. -/
theorem fanLoop_ok_writes (env : FanEnv) (p : JVal) (nid : Int) :
    ∀ subs : List Subscription, (fanLoop env p nid subs).2.2 = Except.ok () →
      (fanLoop env p nid subs).1 = [] := by
  intro subs
  induction subs with
  | nil => intro _; rfl
  | cons s rest ih =>
    intro h
    cases hs : env.send p s with
    | err e =>
      cases hf : env.failWrite with
      | error e2 => simp [fanLoop, hs, hf] at h
      | ok u => simp [fanLoop, hs, hf] at h
    | ok br =>
      cases br with
      | error e => simp [fanLoop, hs] at h
      | ok b =>
        simp [fanLoop, hs] at h ⊢
        exact ih h

/-- A "status" entry of a JSON object is skipped by the notification
decoder: the notification struct has no matching field. -/
theorem notifStep_status_skip (acc : notification × Option String) (v : JVal) :
    notifStep acc ("status", v) = acc := by
  have h1 : keyIs "status" "id" = false := by decide
  have h2 : keyIs "status" "body" = false := by decide
  have h3 : keyIs "status" "created" = false := by decide
  have h4 : keyIs "status" "updated" = false := by decide
  simp [notifStep, h1, h2, h3, h4]

/-- Folding the notification decoder over two field lists that differ
only in the value under "status" gives the same accumulator. -/
theorem foldl_notifStep_statusDiff :
    ∀ {l1 l2 : List (String × JVal)}, StatusDiff l1 l2 →
      ∀ acc, l1.foldl notifStep acc = l2.foldl notifStep acc := by
  intro l1 l2 h
  induction h with
  | nil => intro acc; rfl
  | same kv l1 l2 hd ih => intro acc; simp only [List.foldl_cons]; exact ih _
  | status v1 v2 l1 l2 hd ih =>
    intro acc
    simp only [List.foldl_cons, notifStep_status_skip]
    exact ih _

/-- Decoding a notification ignores the value stored under "status". -/
theorem decodeNotification_statusDiff {fs1 fs2 : List (String × JVal)}
    (h : StatusDiff fs1 fs2) :
    decodeNotification (JVal.obj fs1) = decodeNotification (JVal.obj fs2) := by
  simp [decodeNotification, foldl_notifStep_statusDiff h]

/-- If the transport oracle answers identically on two payloads, the
delivery loop behaves identically on them. -/
theorem fanLoop_send_congr (env : FanEnv) (p1 p2 : JVal) (nid : Int)
    (h : ∀ s, env.send p1 s = env.send p2 s) :
    ∀ subs : List Subscription, fanLoop env p1 nid subs = fanLoop env p2 nid subs := by
  intro subs
  induction subs with
  | nil => rfl
  | cons s rest ih => simp [fanLoop, h s, ih]

/-- C1: for every valid NotificationJob payload and endpoint list, if
the first k-1 deliveries fully succeed and the transport call to the
k-th endpoint (k = good.length + 1, 1-indexed) returns a hard error,
then exactly k delivery calls are made (the endpoints after the k-th are
never attempted), status failed is written for that notification, and
the send error is returned. -/
theorem c1_failfast_hard_error (env : FanEnv) (p : JVal) (n : notification)
    (rows : List (Except String Subscription)) (good : List Subscription)
    (bad : Subscription) (rest2 : List Subscription) (e : String)
    (hdec : decodeNotification p = Except.ok n)
    (hproc : env.procWrite = Except.ok ())
    (hrows : env.subsRows = Except.ok rows)
    (hscan : scanSubs rows = Except.ok (good ++ bad :: rest2))
    (hgood : ∀ s ∈ good, sendFullOk (env.send p s) = true)
    (hbad : env.send p bad = SendRes.err e)
    (hfail : env.failWrite = Except.ok ()) :
    (processNotification env p).calls = good ++ [bad] ∧
    (processNotification env p).calls.length = good.length + 1 ∧
    (processNotification env p).writes =
      [(WStatus.processing, n.ID), (WStatus.failed, n.ID)] ∧
    (processNotification env p).result =
      Except.error ("failed to send notification: " ++ e) := by
  have hfl := fanLoop_append_ok env p n.ID good (bad :: rest2) hgood
  have hstep : fanLoop env p n.ID (bad :: rest2) =
      ([(WStatus.failed, n.ID)], [bad],
       Except.error ("failed to send notification: " ++ e)) := by
    simp [fanLoop, hbad, hfail]
  rw [hstep] at hfl
  refine ⟨?_, ?_, ?_, ?_⟩ <;>
    simp [processNotification, hdec, hproc, hrows, hscan, hfl]

/-- Witness for C1 at a concrete environment: three subscriptions, the
hard error arriving at the second. -/
theorem c1_witness :
    (processNotification env1c p9).calls = [subA, subB] ∧
    (processNotification env1c p9).calls.length = 2 ∧
    (processNotification env1c p9).writes =
      [(WStatus.processing, 7), (WStatus.failed, 7)] ∧
    (processNotification env1c p9).result =
      Except.error ("failed to send notification: " ++ "connection refused") := by
  have h := c1_failfast_hard_error env1c p9 ⟨7, "hi", "", ""⟩
    [Except.ok subA, Except.ok subB, Except.ok subC]
    [subA] subB [subC] "connection refused" rfl rfl rfl rfl
    (by decide) rfl rfl
  exact ⟨h.1, h.2.1, h.2.2.1, h.2.2.2⟩

/-- C2: for every valid NotificationJob payload and an endpoint set of
size N with every delivery fully succeeding, exactly N delivery calls
are made, one per endpoint in enumeration order, and the final status is
completed. -/
theorem c2_all_success (env : FanEnv) (p : JVal) (n : notification)
    (rows : List (Except String Subscription)) (subs : List Subscription)
    (hdec : decodeNotification p = Except.ok n)
    (hproc : env.procWrite = Except.ok ())
    (hrows : env.subsRows = Except.ok rows)
    (hscan : scanSubs rows = Except.ok subs)
    (hall : ∀ s ∈ subs, sendFullOk (env.send p s) = true)
    (hcomp : env.compWrite = Except.ok ()) :
    (processNotification env p).calls = subs ∧
    (processNotification env p).calls.length = subs.length ∧
    (processNotification env p).writes =
      [(WStatus.processing, n.ID), (WStatus.completed, n.ID)] ∧
    (processNotification env p).result = Except.ok () := by
  have hfl : fanLoop env p n.ID subs = ([], subs, Except.ok ()) := by
    have h := fanLoop_append_ok env p n.ID subs [] hall
    simpa [fanLoop] using h
  refine ⟨?_, ?_, ?_, ?_⟩ <;>
    simp [processNotification, hdec, hproc, hrows, hscan, hfl, hcomp]

/-- Witness for C2 at a concrete environment with two subscriptions. -/
theorem c2_witness :
    (processNotification envNOk p9).calls = [subA, subB] ∧
    (processNotification envNOk p9).writes =
      [(WStatus.processing, 7), (WStatus.completed, 7)] ∧
    (processNotification envNOk p9).result = Except.ok () := by
  have h := c2_all_success envNOk p9 ⟨7, "hi", "", ""⟩
    [Except.ok subA, Except.ok subB] [subA, subB] rfl rfl rfl rfl
    (by decide) rfl
  exact ⟨h.1, h.2.2.1, h.2.2.2⟩

/-- C3: for every valid WorkItem payload, when both store writes succeed
the Work Processor writes status processing for the matching id and then
status completed, in that order and nothing else, and neither write
changes the updated timestamp of any row, so the updated timestamps are
non-decreasing over the two writes. -/
theorem c3_work_processor_happy_path (env : TaskEnv) (p : JVal) (t : task)
    (hdec : decodeTask p = Except.ok t)
    (hproc : env.procWrite = Except.ok ())
    (hcomp : env.compWrite = Except.ok ()) :
    (processTask env p).1 = [(WStatus.processing, t.ID), (WStatus.completed, t.ID)] ∧
    (processTask env p).2 = Except.ok () ∧
    ∀ r : taskRow,
      (applyTaskWrite r (WStatus.processing, t.ID)).updated = r.updated ∧
      (applyTaskWrite (applyTaskWrite r (WStatus.processing, t.ID))
        (WStatus.completed, t.ID)).updated = r.updated := by
  refine ⟨?_, ?_, ?_⟩
  · simp [processTask, hdec, hproc, hcomp]
  · simp [processTask, hdec, hproc, hcomp]
  · intro r
    simp [applyTaskWrite_updated]

/-- Witness for C3 at a concrete payload, environment and row. -/
theorem c3_witness :
    (processTask envOKt p4).1 =
      [(WStatus.processing, "t1"), (WStatus.completed, "t1")] ∧
    (processTask envOKt p4).2 = Except.ok () ∧
    (applyTaskWrite rowT (WStatus.processing, "t1")).updated = rowT.updated := by
  have h := c3_work_processor_happy_path envOKt p4 ⟨"t1", "", JVal.null, "", "", ""⟩
    rfl rfl rfl
  exact ⟨h.1, h.2.1, (h.2.2 rowT).1⟩

/-- C4 counterexample: a valid WorkItem payload (decode succeeds, so
this is a non-decode execution path) on which the second store write
fails: processing ends with an error, the only committed write is
status processing, and no completed or failed status is ever written —
the unit of work reaches no terminal mark. -/
theorem c4_counterexample :
    decodeTask p4 = Except.ok ⟨"t1", "", JVal.null, "", "", ""⟩ ∧
    processTask env4 p4 =
      ([(WStatus.processing, "t1")],
       Except.error ("failed to update task status: " ++ "disk full")) ∧
    ((processTask env4 p4).1.all fun w =>
      decide (w.1 ≠ WStatus.completed) && decide (w.1 ≠ WStatus.failed)) = true := by
  refine ⟨rfl, rfl, by decide⟩

/-- C4 amended: the Work Processor never writes status failed; it
reaches a terminal mark only on the all-writes-succeed path, where the
mark is completed; on every error path the committed writes are at most
a single processing write, so a store-write failure leaves the item
without a terminal status. -/
theorem c4_amended_terminal_only_on_success (env : TaskEnv) (p : JVal) :
    (∀ w ∈ (processTask env p).1, w.1 ≠ WStatus.failed) ∧
    ((processTask env p).2 = Except.ok () →
      ∃ t, decodeTask p = Except.ok t ∧
        (processTask env p).1 =
          [(WStatus.processing, t.ID), (WStatus.completed, t.ID)]) ∧
    (∀ e, (processTask env p).2 = Except.error e →
      ∀ w ∈ (processTask env p).1, w.1 = WStatus.processing) := by
  cases hdec : decodeTask p with
  | error e => simp [processTask, hdec]
  | ok t =>
    cases hpw : env.procWrite with
    | error e1 => simp [processTask, hdec, hpw]
    | ok u1 =>
      cases hcw : env.compWrite with
      | error e2 => simp [processTask, hdec, hpw, hcw]
      | ok u2 =>
        refine ⟨?_, ?_, ?_⟩
        · simp [processTask, hdec, hpw, hcw]
        · intro _
          exact ⟨t, rfl, by simp [processTask, hdec, hpw, hcw]⟩
        · intro e he
          simp [processTask, hdec, hpw, hcw] at he
  
/-- Witness for the amended C4 at a concrete payload and environment. -/
theorem c4_amended_witness :
    (WStatus.processing, ("t1" : String)).1 ≠ WStatus.failed ∧
    (∃ t, decodeTask p4 = Except.ok t ∧
      (processTask envOKt p4).1 =
        [(WStatus.processing, t.ID), (WStatus.completed, t.ID)]) := by
  refine ⟨?_, (c4_amended_terminal_only_on_success envOKt p4).2.1 rfl⟩
  exact (c4_amended_terminal_only_on_success envOKt p4).1
    (WStatus.processing, "t1") (by decide)

/-- C5 counterexample: the status UPDATEs are unconditional, so when the
event for row t1 is delivered while the row already sits at the terminal
status completed, the first committed write of the Work Processor moves
the row from completed back to processing. -/
theorem c5_counterexample :
    row5.status = WStatus.completed ∧
    (processTask envOKt p4).1.head? = some (WStatus.processing, "t1") ∧
    (applyTaskWrite row5 (WStatus.processing, "t1")).status = WStatus.processing := by
  refine ⟨rfl, by decide, by decide⟩

/-- C5 amended: neither processor ever writes status pending (so no
item is re-queued automatically), and within one event's processing a
terminal status (completed or failed) can only be the last committed
write, preceded only by processing writes; the writes are however
unconditional on the row's current status, so a re-delivered event for
a terminal row overwrites it with processing. -/
theorem c5_amended_no_requeue_terminal_last (envT : TaskEnv) (pT : JVal)
    (envN : FanEnv) (pN : JVal) :
    (∀ w ∈ (processTask envT pT).1, w.1 ≠ WStatus.pending) ∧
    (∀ w ∈ (processTask envT pT).1.dropLast, w.1 = WStatus.processing) ∧
    (∀ w ∈ (processNotification envN pN).writes, w.1 ≠ WStatus.pending) ∧
    (∀ w ∈ (processNotification envN pN).writes.dropLast, w.1 = WStatus.processing) := by
  refine ⟨?_, ?_, ?_, ?_⟩
  · cases hdec : decodeTask pT with
    | error e => simp [processTask, hdec]
    | ok t =>
      cases hpw : envT.procWrite with
      | error e1 => simp [processTask, hdec, hpw]
      | ok u1 =>
        cases hcw : envT.compWrite with
        | error e2 => simp [processTask, hdec, hpw, hcw]
        | ok u2 => simp [processTask, hdec, hpw, hcw]
  · cases hdec : decodeTask pT with
    | error e => simp [processTask, hdec]
    | ok t =>
      cases hpw : envT.procWrite with
      | error e1 => simp [processTask, hdec, hpw]
      | ok u1 =>
        cases hcw : envT.compWrite with
        | error e2 => simp [processTask, hdec, hpw, hcw]
        | ok u2 => simp [processTask, hdec, hpw, hcw]
  · cases hdec : decodeNotification pN with
    | error e => simp [processNotification, hdec]
    | ok n =>
      cases hpw : envN.procWrite with
      | error e1 => simp [processNotification, hdec, hpw]
      | ok u1 =>
        cases hsr : envN.subsRows with
        | error e2 => simp [processNotification, hdec, hpw, hsr]
        | ok rows =>
          cases hsc : scanSubs rows with
          | error e3 => simp [processNotification, hdec, hpw, hsr, hsc]
          | ok subs =>
            cases hres : (fanLoop envN pN n.ID subs).2.2 with
            | error e4 =>
              rcases fanLoop_writes_shape envN pN n.ID subs with hw | hw <;>
                simp [processNotification, hdec, hpw, hsr, hsc, hres, hw]
            | ok u2 =>
              have hw := fanLoop_ok_writes envN pN n.ID subs hres
              cases hcw : envN.compWrite with
              | error e5 => simp [processNotification, hdec, hpw, hsr, hsc, hres, hw, hcw]
              | ok u3 => simp [processNotification, hdec, hpw, hsr, hsc, hres, hw, hcw]
  · cases hdec : decodeNotification pN with
    | error e => simp [processNotification, hdec]
    | ok n =>
      cases hpw : envN.procWrite with
      | error e1 => simp [processNotification, hdec, hpw]
      | ok u1 =>
        cases hsr : envN.subsRows with
        | error e2 => simp [processNotification, hdec, hpw, hsr]
        | ok rows =>
          cases hsc : scanSubs rows with
          | error e3 => simp [processNotification, hdec, hpw, hsr, hsc]
          | ok subs =>
            cases hres : (fanLoop envN pN n.ID subs).2.2 with
            | error e4 =>
              rcases fanLoop_writes_shape envN pN n.ID subs with hw | hw <;>
                simp [processNotification, hdec, hpw, hsr, hsc, hres, hw]
            | ok u2 =>
              have hw := fanLoop_ok_writes envN pN n.ID subs hres
              cases hcw : envN.compWrite with
              | error e5 => simp [processNotification, hdec, hpw, hsr, hsc, hres, hw, hcw]
              | ok u3 => simp [processNotification, hdec, hpw, hsr, hsc, hres, hw, hcw]

/-- Witness for the amended C5 at concrete payloads and environments. -/
theorem c5_amended_witness :
    (WStatus.processing, ("t1" : String)).1 ≠ WStatus.pending ∧
    (WStatus.processing, ("t1" : String)).1 = WStatus.processing := by
  refine ⟨(c5_amended_no_requeue_terminal_last envOKt p4 envNOk p9).1
    (WStatus.processing, "t1") (by decide), ?_⟩
  exact (c5_amended_no_requeue_terminal_last envOKt p4 envNOk p9).2.1
    (WStatus.processing, "t1") (by decide)

/-- C6: a malformed payload on either channel makes the processor return
a decode error with no store write committed and no delivery call made,
the dispatcher loop logs that error, and the loop continues: the
remaining schedule is processed exactly as it would have been without
the malformed event. -/
theorem c6_malformed_payload :
    (∀ (p : JVal) (e : String) (env : TaskEnv) (rest : List Pull),
      decodeTask p = Except.error e →
      processTask env p = ([], Except.error ("failed to unmarshal task: " ++ e)) ∧
      workerLoop (fun q => processTask env q) (Pull.event p :: rest) =
        ⟨(workerLoop (fun q => processTask env q) rest).writes,
         p :: (workerLoop (fun q => processTask env q) rest).processed,
         ("error processing notification: " ++ ("failed to unmarshal task: " ++ e)) ::
           (workerLoop (fun q => processTask env q) rest).logs,
         (workerLoop (fun q => processTask env q) rest).exit⟩) ∧
    (∀ (p : JVal) (e : String) (env : FanEnv) (rest : List Pull),
      decodeNotification p = Except.error e →
      processNotification env p =
        ⟨[], [], Except.error ("failed to unmarshal notification: " ++ e)⟩ ∧
      workerLoop
          (fun q => ((processNotification env q).writes, (processNotification env q).result))
          (Pull.event p :: rest) =
        ⟨(workerLoop (fun q => ((processNotification env q).writes,
            (processNotification env q).result)) rest).writes,
         p :: (workerLoop (fun q => ((processNotification env q).writes,
            (processNotification env q).result)) rest).processed,
         ("error processing notification: " ++ ("failed to unmarshal notification: " ++ e)) ::
           (workerLoop (fun q => ((processNotification env q).writes,
              (processNotification env q).result)) rest).logs,
         (workerLoop (fun q => ((processNotification env q).writes,
            (processNotification env q).result)) rest).exit⟩) := by
  constructor
  · intro p e env rest hdec
    constructor
    · simp [processTask, hdec]
    · simp [workerLoop, processTask, hdec]
  · intro p e env rest hdec
    constructor
    · simp [processNotification, hdec]
    · simp [workerLoop, processNotification, hdec]

/-- Witness for C6: the malformed string payload, followed by a valid
event that is still processed. -/
theorem c6_witness :
    processTask envOKt pBad =
      ([], Except.error ("failed to unmarshal task: " ++
        "json: cannot unmarshal value into Go value of type main.task")) ∧
    workerLoop (fun q => processTask envOKt q) (Pull.event pBad :: [Pull.event p4]) =
      ⟨(workerLoop (fun q => processTask envOKt q) [Pull.event p4]).writes,
       pBad :: (workerLoop (fun q => processTask envOKt q) [Pull.event p4]).processed,
       ("error processing notification: " ++ ("failed to unmarshal task: " ++
         "json: cannot unmarshal value into Go value of type main.task")) ::
         (workerLoop (fun q => processTask envOKt q) [Pull.event p4]).logs,
       (workerLoop (fun q => processTask envOKt q) [Pull.event p4]).exit⟩ ∧
    processNotification envNOk pBad =
      ⟨[], [], Except.error ("failed to unmarshal notification: " ++
        "json: cannot unmarshal value into Go value of type main.notification")⟩ := by
  refine ⟨?_, ?_, ?_⟩
  · exact (c6_malformed_payload.1 pBad _ envOKt [Pull.event p4] rfl).1
  · exact (c6_malformed_payload.1 pBad _ envOKt [Pull.event p4] rfl).2
  · exact (c6_malformed_payload.2 pBad _ envNOk [] rfl).1

/-- C7: the connection guard polls with a fixed interval and at most
five attempts. If the store becomes reachable on the third attempt it
succeeds after exactly three pings having completed two interval waits;
if the store is never reachable it fails after exactly five pings with
an error; if cancellation fires during the wait after attempt j it
returns the cancellation error early, after j+1 pings and j completed
waits. -/
theorem c7_connection_guard (pingOk cancelled : Nat → Bool) :
    (pingOk 0 = false → pingOk 1 = false → pingOk 2 = true →
      (∀ i, cancelled i = false) →
      waitForConnection pingOk cancelled = ⟨3, 2, Except.ok ()⟩) ∧
    ((∀ i, pingOk i = false) → (∀ i, cancelled i = false) →
      waitForConnection pingOk cancelled =
        ⟨5, 5, Except.error "failed to connect to database after 5 attempts"⟩) ∧
    (∀ j, j < maxRetries → (∀ i, i ≤ j → pingOk i = false) →
      (∀ i, i < j → cancelled i = false) → cancelled j = true →
      waitForConnection pingOk cancelled =
        ⟨j + 1, j, Except.error "context canceled"⟩) := by
  refine ⟨?_, ?_, ?_⟩
  · intro h0 h1 h2 hc
    simp [waitForConnection, maxRetries, wfcLoop, h0, h1, h2, hc 0, hc 1]
  · intro hp hc
    simp [waitForConnection, maxRetries, wfcLoop, hp 0, hp 1, hp 2, hp 3, hp 4,
      hc 0, hc 1, hc 2, hc 3, hc 4]
  · intro j hj hp hc hcj
    have hj5 : j < 5 := by simpa [maxRetries] using hj
    interval_cases j
    · simp [waitForConnection, maxRetries, wfcLoop, hp 0 (by omega), hcj]
    · simp [waitForConnection, maxRetries, wfcLoop, hp 0 (by omega), hp 1 (by omega),
        hc 0 (by omega), hcj]
    · simp [waitForConnection, maxRetries, wfcLoop, hp 0 (by omega), hp 1 (by omega),
        hp 2 (by omega), hc 0 (by omega), hc 1 (by omega), hcj]
    · simp [waitForConnection, maxRetries, wfcLoop, hp 0 (by omega), hp 1 (by omega),
        hp 2 (by omega), hp 3 (by omega), hc 0 (by omega), hc 1 (by omega),
        hc 2 (by omega), hcj]
    · simp [waitForConnection, maxRetries, wfcLoop, hp 0 (by omega), hp 1 (by omega),
        hp 2 (by omega), hp 3 (by omega), hp 4 (by omega), hc 0 (by omega),
        hc 1 (by omega), hc 2 (by omega), hc 3 (by omega), hcj]

/-- Witness for C7 at concrete ping and cancellation oracles. -/
theorem c7_witness :
    waitForConnection pingOk3 cancelNever = ⟨3, 2, Except.ok ()⟩ ∧
    waitForConnection pingNever cancelNever =
      ⟨5, 5, Except.error "failed to connect to database after 5 attempts"⟩ ∧
    waitForConnection pingNever cancelAt1 =
      ⟨2, 1, Except.error "context canceled"⟩ := by
  refine ⟨(c7_connection_guard pingOk3 cancelNever).1 rfl rfl rfl (fun i => rfl),
          (c7_connection_guard pingNever cancelNever).2.1 (fun i => rfl) (fun i => rfl),
          ?_⟩
  refine (c7_connection_guard pingNever cancelAt1).2.2 1 (by decide)
    (fun i _ => rfl) ?_ rfl
  intro i hi
  interval_cases i
  rfl

/-- C8: after LISTEN registration, a wait error not attributable to
cancellation is logged and the loop continues with the rest of the
schedule unchanged (the subscriber never terminates on a transient wait
error), whereas cancellation — observed at the top of the loop or
through a wait error with the context cancelled — ends the loop cleanly
with the nil result, processing nothing further. -/
theorem c8_subscriber_loop (α : Type) (proc : JVal → List α × Except String Unit)
    (e : String) (rest : List Pull) :
    workerLoop proc (Pull.waitErr e :: rest) =
      ⟨(workerLoop proc rest).writes, (workerLoop proc rest).processed,
       ("error waiting for notification: " ++ e) :: (workerLoop proc rest).logs,
       (workerLoop proc rest).exit⟩ ∧
    workerLoop proc (Pull.ctxDone :: rest) = ⟨[], [], [], ExitKind.cleanExit⟩ ∧
    workerLoop proc (Pull.waitErrCancelled e :: rest) =
      ⟨[], [], [], ExitKind.cleanExit⟩ :=
  ⟨rfl, rfl, rfl⟩

/-- C9 counterexample: the transport call to subA succeeds (it returns a
response), yet because reading that response body fails the fan-out is
aborted: subB is never attempted, no further status is written (not even
failed), and the body-read error is returned. A successful transport
call can therefore abort the fan-out. -/
theorem c9_counterexample :
    env9.send p9 subA = SendRes.ok (Except.error "read failed") ∧
    (processNotification env9 p9).calls = [subA] ∧
    (processNotification env9 p9).writes = [(WStatus.processing, 7)] ∧
    (processNotification env9 p9).result =
      Except.error ("failed to read vapid response body: " ++ "read failed") := by
  refine ⟨rfl, rfl, rfl, rfl⟩

/-- C9 amended: for every endpoint whose transport call succeeds and
whose response body is read successfully, the processor continues to the
next endpoint; a successful transport call aborts the fan-out exactly
when reading its response body fails, and then the read error is
returned with the remaining endpoints skipped and no failed status
written. -/
theorem c9_amended_body_read (env : FanEnv) (p : JVal) (n : notification)
    (rows : List (Except String Subscription)) (good : List Subscription)
    (s : Subscription) (rest2 : List Subscription) (e : String)
    (hdec : decodeNotification p = Except.ok n)
    (hproc : env.procWrite = Except.ok ())
    (hrows : env.subsRows = Except.ok rows)
    (hscan : scanSubs rows = Except.ok (good ++ s :: rest2))
    (hgood : ∀ x ∈ good, sendFullOk (env.send p x) = true)
    (hs : env.send p s = SendRes.ok (Except.error e)) :
    (processNotification env p).calls = good ++ [s] ∧
    (processNotification env p).writes = [(WStatus.processing, n.ID)] ∧
    (processNotification env p).result =
      Except.error ("failed to read vapid response body: " ++ e) := by
  have hfl := fanLoop_append_ok env p n.ID good (s :: rest2) hgood
  have hstep : fanLoop env p n.ID (s :: rest2) =
      ([], [s], Except.error ("failed to read vapid response body: " ++ e)) := by
    simp [fanLoop, hs]
  rw [hstep] at hfl
  refine ⟨?_, ?_, ?_⟩ <;>
    simp [processNotification, hdec, hproc, hrows, hscan, hfl]

/-- Witness for the amended C9: subA fully succeeds and is followed by
subB, whose response body read fails; subC is skipped. -/
theorem c9_amended_witness :
    (processNotification env9b p9).calls = [subA, subB] ∧
    (processNotification env9b p9).writes = [(WStatus.processing, 7)] ∧
    (processNotification env9b p9).result =
      Except.error ("failed to read vapid response body: " ++ "unexpected EOF") := by
  have h := c9_amended_body_read env9b p9 ⟨7, "hi", "", ""⟩
    [Except.ok subA, Except.ok subB, Except.ok subC]
    [subA] subB [subC] "unexpected EOF" rfl rfl rfl rfl (by decide) rfl
  exact h

/-- C10: decoding a NotificationJob event ignores any "status" field —
the notification struct has no status attribute — so two event payloads
that differ only in the value under "status" decode to the same job and,
when the external transport treats the two raw payloads alike, drive
processNotification to the very same outcome: same status writes, same
delivery calls, same result. -/
theorem c10_status_field_ignored (env : FanEnv) (fs1 fs2 : List (String × JVal))
    (hdiff : StatusDiff fs1 fs2)
    (hsend : ∀ s, env.send (JVal.obj fs1) s = env.send (JVal.obj fs2) s) :
    decodeNotification (JVal.obj fs1) = decodeNotification (JVal.obj fs2) ∧
    processNotification env (JVal.obj fs1) = processNotification env (JVal.obj fs2) := by
  have hd := decodeNotification_statusDiff hdiff
  have hfl : ∀ (nid : Int) (subs : List Subscription),
      fanLoop env (JVal.obj fs1) nid subs = fanLoop env (JVal.obj fs2) nid subs :=
    fun nid => fanLoop_send_congr env (JVal.obj fs1) (JVal.obj fs2) nid hsend
  refine ⟨hd, ?_⟩
  unfold processNotification
  rw [hd]
  simp only [hfl]

/-- Witness for C10: two concrete payloads whose "status" values differ
("pending" versus "completed") under a concrete environment. -/
theorem c10_witness :
    decodeNotification (JVal.obj fs1c) = decodeNotification (JVal.obj fs2c) ∧
    processNotification env10 (JVal.obj fs1c) = processNotification env10 (JVal.obj fs2c) :=
  c10_status_field_ignored env10 fs1c fs2c
    (StatusDiff.same ("id", JVal.num 1) _ _
      (StatusDiff.status (JVal.str "pending") (JVal.str "completed") _ _ StatusDiff.nil))
    (fun _ => rfl)
